import Mathlib

/-!
Verification development for the status-bar-manager extension
(src/index.ts).  The TypeScript source manages "bindings" between
worldbook entries (external knowledge records) and tavern regexes
(external text-transform rules).  External stores are modelled as
explicit state; asynchronous host calls that can fail are modelled with
Option/Except-style results; machine strings are Lean Strings and the
JS prefix test is modelled as a character-list prefix test.
-/

namespace StatusBarManager

/-- Worldbook entry (external knowledge record): the fields of the host
store's entries that src/index.ts reads or writes. -/
structure WorldbookEntry where
  uid : Nat
  name : String
  enabled : Bool
deriving Repr, DecidableEq

/-- Tavern regex (external text-transform rule): the fields of the host
store's rules that src/index.ts reads or writes. -/
structure TavernRegex where
  id : String
  script_name : String
  enabled : Bool
deriving Repr, DecidableEq

/-- StatusBarBinding, from src/index.ts lines 1-9. -/
structure StatusBarBinding where
  id : String
  label : String
  worldbook_name : String
  worldbook_entry_uid : Nat
  worldbook_entry_name : String
  regex_id : String
  regex_script_name : String
deriving Repr, DecidableEq

/-- REGEX_PREFIX, from src/index.ts line 18. -/
def REGEX_PREFIX : String := "[状态栏] "

/-- Embedding of the JavaScript test s.startsWith(p): p's character
sequence is a prefix of s's character sequence. -/
def strStartsWith (s p : String) : Bool := p.data.isPrefixOf s.data

/-- ensureRegexPrefix, from src/index.ts lines 44-49. -/
def ensureRegexPrefix (scriptName : String) : String :=
  if strStartsWith scriptName REGEX_PREFIX then scriptName
  else REGEX_PREFIX ++ scriptName

/-- JavaScript values produced by JSON.parse, as used by the import
path of src/index.ts: null, booleans, numbers (the payloads exercised
by the code carry integer ids and counts, so numbers are modelled as
integers), strings, arrays and objects. -/
inductive JsValue where
  | null : JsValue
  | bool (b : Bool) : JsValue
  | num (n : Int) : JsValue
  | str (s : String) : JsValue
  | arr (elems : List JsValue) : JsValue
  | obj (fields : List (String × JsValue)) : JsValue
deriving Repr

/-- Embedding of the JavaScript optional field access v?.key: an object
yields its first binding of key (none when absent, modelling
undefined); every non-object value yields none. -/
def JsValue.getField : JsValue → String → Option JsValue
  | .obj fields, key => (fields.find? (fun p => p.1 == key)).map (·.2)
  | _, _ => none

/-- Embedding of Array.isArray used as a refinement: the element list
when the value is an array, none otherwise. -/
def JsValue.asArray : JsValue → Option (List JsValue)
  | .arr elems => some elems
  | _ => none

/-- parseImportedRegexList, from src/index.ts lines 51-65.  The four
guards translate one by one: Array.isArray(payload);
Array.isArray(payload?.regex_scripts);
Array.isArray(payload?.data?.regex_scripts); and the final
payload && typeof payload === 'object' check, which at this point can
only be satisfied by a (non-null, non-array) object. -/
def parseImportedRegexList (payload : JsValue) : List JsValue :=
  match payload.asArray with
  | some elems => elems
  | none =>
    match (payload.getField "regex_scripts").bind JsValue.asArray with
    | some elems => elems
    | none =>
      match ((payload.getField "data").bind
          (fun d => d.getField "regex_scripts")).bind JsValue.asArray with
      | some elems => elems
      | none =>
        match payload with
        | .obj fields => [.obj fields]
        | _ => []

/-- Spec-side restatement of descriptor extraction, following the
spec's words: try, in order, the payload itself as a list; a
regex_scripts list field; a nested data.regex_scripts list field;
finally, if the payload is a single (non-null, non-array) object, wrap
it as a one-element list; if none match, the empty list. -/
def descriptorExtractionSpec (payload : JsValue) : List JsValue :=
  if let .arr elems := payload then elems
  else if let some (.arr elems) := payload.getField "regex_scripts" then elems
  else if let some (.arr elems) :=
      (payload.getField "data").bind (fun d => d.getField "regex_scripts") then elems
  else if let .obj fields := payload then [.obj fields]
  else []

/-- Embedding of the JavaScript nullish coalescing a ?? b for a field
access a (none models undefined): b when a is missing or null, a
otherwise. -/
def jsCoalesce (a : Option JsValue) (b : JsValue) : JsValue :=
  match a with
  | none => b
  | some .null => b
  | some v => v

mutual

/-- Embedding of the JavaScript conversion String(v): strings pass
through, primitives print, arrays join their elements with commas
(null elements print as the empty string) and plain objects print as
the object placeholder. -/
def JsValue.toDisplayString : JsValue → String
  | .null => "null"
  | .bool b => cond b "true" "false"
  | .num n => toString n
  | .str s => s
  | .arr elems => String.intercalate "," (jsArrayElemStrings elems)
  | .obj _ => "[object Object]"

/-- Element strings of a JavaScript array conversion: null prints as
the empty string, every other element via JsValue.toDisplayString. -/
def jsArrayElemStrings : List JsValue → List String
  | [] => []
  | .null :: rest => "" :: jsArrayElemStrings rest
  | v :: rest => v.toDisplayString :: jsArrayElemStrings rest

end

/-- Embedding of the JavaScript method s.trim(): drop whitespace
characters from both ends of the character sequence. -/
def jsTrim (s : String) : String :=
  String.mk (((s.data.dropWhile Char.isWhitespace).reverse.dropWhile
    Char.isWhitespace).reverse)

/-- getRegexDisplayName, from src/index.ts lines 67-72: the first
present, non-null field among script_name, scriptName, name and title
(defaulting to the empty string), converted to a string and trimmed. -/
def getRegexDisplayName (item : JsValue) : String :=
  jsTrim (JsValue.toDisplayString
    (jsCoalesce (item.getField "script_name")
      (jsCoalesce (item.getField "scriptName")
        (jsCoalesce (item.getField "name")
          (jsCoalesce (item.getField "title") (.str ""))))))

/-- The mutable world the source operates on: the external worldbook
store (an association of worldbook names to entry lists), the external
tavern-regex store, the locally persisted binding registry
(SillyTavern.extensionSettings bindings) and a counter of
saveSettingsDebounced calls. -/
structure AppState where
  worldbooks : List (String × List WorldbookEntry)
  regexes : List TavernRegex
  bindings : List StatusBarBinding
  saveCount : Nat
deriving Repr

/-- Embedding of the host call getWorldbook(name): the named
worldbook's entries, or none when the worldbook cannot be read
(deleted, renamed, I/O failure) — the host call throws in that case,
and callers in src/index.ts that tolerate the failure wrap it in
try/catch. -/
def getWorldbook (worldbooks : List (String × List WorldbookEntry)) (name : String) :
    Option (List WorldbookEntry) :=
  (worldbooks.find? (fun p => p.1 == name)).map (·.2)

/-- Embedding of the host call updateWorldbookWith(name, updater):
replaces the named worldbook's entries with the updater's result; a
name not present leaves the store unchanged (there is nothing for the
updater to run on). -/
def updateWorldbookWith (worldbooks : List (String × List WorldbookEntry))
    (name : String) (updater : List WorldbookEntry → List WorldbookEntry) :
    List (String × List WorldbookEntry) :=
  worldbooks.map (fun p => if p.1 == name then (p.1, updater p.2) else p)

/-- getRegexById, from src/index.ts lines 78-80. -/
def getRegexById (regexes : List TavernRegex) (regexId : String) : Option TavernRegex :=
  regexes.find? (fun item => item.id == regexId)

/-- getManagedRegexes, from src/index.ts lines 74-76. -/
def getManagedRegexes (regexes : List TavernRegex) : List TavernRegex :=
  regexes.filter (fun item => strStartsWith item.script_name REGEX_PREFIX)

/-- Result type of getBindingLiveState, from src/index.ts lines
153-156: none models null (reference currently unresolvable). -/
structure LiveState where
  worldbook_enabled : Option Bool
  regex_enabled : Option Bool
deriving Repr, DecidableEq

/-- getBindingLiveState, from src/index.ts lines 153-179.  The
try/catch around the worldbook lookup is modelled by the none branch of
getWorldbook: a failed read leaves worldbookEnabled at its initial
null.  The function is total — it never throws. -/
def getBindingLiveState (st : AppState) (binding : StatusBarBinding) : LiveState :=
  let worldbookEnabled : Option Bool :=
    match getWorldbook st.worldbooks binding.worldbook_name with
    | none => none
    | some worldbook =>
      match worldbook.find? (fun item => item.uid == binding.worldbook_entry_uid) with
      | some entry => some entry.enabled
      | none => none
  let regexEnabled : Option Bool :=
    match getRegexById st.regexes binding.regex_id with
    | some regex => some regex.enabled
    | none => none
  { worldbook_enabled := worldbookEnabled, regex_enabled := regexEnabled }

/-- Result of setBindingEnabled: the state after both update passes,
the two matched flags the source tracks, and whether the final check
threw the sync error (src/index.ts line 206).  When the error is
thrown, both store updates have already run. -/
structure ToggleResult where
  state : AppState
  worldbookMatched : Bool
  regexMatched : Bool
  syncError : Bool
deriving Repr

/-- setBindingEnabled, from src/index.ts lines 181-208.  The source
sets worldbookMatched and regexMatched inside the map closures passed
to the two update calls; a closure over a list map hits a matching
element exactly when some element satisfies the match test, so the
flags are computed here as the corresponding any-queries over the same
lists the maps traverse. -/
def setBindingEnabled (st : AppState) (binding : StatusBarBinding) (enabled : Bool) :
    ToggleResult :=
  let worldbookMatched :=
    st.worldbooks.any (fun p =>
      p.1 == binding.worldbook_name &&
        p.2.any (fun entry => entry.uid == binding.worldbook_entry_uid))
  let worldbooks' := updateWorldbookWith st.worldbooks binding.worldbook_name
    (fun worldbook =>
      worldbook.map (fun entry =>
        if entry.uid == binding.worldbook_entry_uid then { entry with enabled := enabled }
        else entry))
  let regexMatched := st.regexes.any (fun regex => regex.id == binding.regex_id)
  let regexes' := st.regexes.map (fun regex =>
    if regex.id == binding.regex_id then
      { regex with enabled := enabled, script_name := ensureRegexPrefix regex.script_name }
    else regex)
  { state := { st with worldbooks := worldbooks', regexes := regexes' }
    worldbookMatched := worldbookMatched
    regexMatched := regexMatched
    syncError := !worldbookMatched && !regexMatched }

/-- The ordered inferred-name list of importRegexFromFile, src/index.ts
lines 112-123: the argument is the JSON.parse outcome (none when the
parse threw, in which case the catch block leaves the list empty);
otherwise the descriptors' display names with empty names dropped. -/
def computeImportedNames (parsed : Option JsValue) : List String :=
  match parsed with
  | none => []
  | some payload =>
    ((parseImportedRegexList payload).map getRegexDisplayName).filter
      (fun name => name.length > 0)

/-- The renaming pass of importRegexFromFile, src/index.ts lines
131-147: walk the post-ingestion rule list in store order carrying
nameIndex; rules whose id is in the pre-import snapshot pass through;
each new rule consumes the next inferred name (falling back to its own
current name when the list is exhausted) and is renamed through
ensureRegexPrefix. -/
def renameNewRegexes (beforeIds : List String) (importedNames : List String) :
    List TavernRegex → Nat → List TavernRegex
  | [], _ => []
  | item :: rest, nameIndex =>
    if beforeIds.contains item.id then
      item :: renameNewRegexes beforeIds importedNames rest nameIndex
    else
      { item with script_name :=
          ensureRegexPrefix ((importedNames.get? nameIndex).getD item.script_name) } ::
        renameNewRegexes beforeIds importedNames rest (nameIndex + 1)

/-- Outcome of importRegexFromFile: the state after the call, whether
the raw-ingestion failure path was taken (the import error toast at
src/index.ts line 127), and the managed-rule count surfaced on success
(src/index.ts lines 149-150; 0 and unused on the failure path). -/
structure ImportResult where
  state : AppState
  importError : Bool
  reportedCount : Nat
deriving Repr

/-- importRegexFromFile, from src/index.ts lines 95-151, starting at
the beforeIds snapshot (line 110); the file-input plumbing above it is
DOM access.  parsed is the JSON.parse outcome of the file content;
ingested is the outcome of the external store's raw ingestion
primitive importRawTavernRegex: none when it signals failure (the
function stops and mutates nothing), some rs when it succeeds with rs
the store's full rule list after ingestion. -/
def importRegexFromFile (st : AppState) (parsed : Option JsValue)
    (ingested : Option (List TavernRegex)) : ImportResult :=
  let beforeIds := st.regexes.map (·.id)
  let importedNames := computeImportedNames parsed
  match ingested with
  | none => { state := st, importError := true, reportedCount := 0 }
  | some regexesAfterIngest =>
    let regexes' := renameNewRegexes beforeIds importedNames regexesAfterIngest 0
    { state := { st with regexes := regexes' }
      importError := false
      reportedCount := (getManagedRegexes regexes').length }

/-- Position-i name index of the renaming pass: how many rules before
position i of the post-ingestion list are new (id not in the
snapshot). -/
def newIndexBefore (beforeIds : List String) (regexes : List TavernRegex) (i : Nat) : Nat :=
  ((regexes.take i).filter (fun item => !beforeIds.contains item.id)).length

/-- A raw worldbook selection row of createBindingFromSelection
(src/index.ts lines 419-431): the selected worldbook name and the
Number(...) conversion of the selected entry value, where none models a
non-integer result (NaN from an empty selection). -/
structure WorldbookSelection where
  worldbookName : String
  entryUid : Option Nat
deriving Repr

/-- validWorldbookSelections, src/index.ts lines 442-444: keep rows
with a truthy (non-empty) worldbook name and an integer uid. -/
def validWorldbookSelections (sels : List WorldbookSelection) : List (String × Nat) :=
  sels.filterMap (fun item =>
    match item.entryUid with
    | some uid => if item.worldbookName == "" then none else some (item.worldbookName, uid)
    | none => none)

/-- The duplicate test of src/index.ts lines 468-473. -/
def bindingTupleMatches (binding : StatusBarBinding) (worldbookName : String)
    (entryUid : Nat) (regexId : String) : Bool :=
  binding.worldbook_name == worldbookName && binding.worldbook_entry_uid == entryUid &&
    binding.regex_id == regexId

/-- Loop state of createBindingFromSelection: the registry being pushed
into, createdCount, and the position in the identity-generator stream
(how many uuidv4 calls have happened). -/
structure CreateState where
  bindings : List StatusBarBinding
  createdCount : Nat
  uuidIndex : Nat
deriving Repr

/-- Inner loop of createBindingFromSelection (src/index.ts lines
462-489) for one resolved worldbook entry: for each selected rule id,
skip when the rule is not in the managed snapshot, skip when a binding
with the identical (worldbook, uid, rule) tuple already exists in the
live registry (which earlier iterations have already pushed into),
otherwise push a new binding with the next generated id. -/
def createForEntry (uuid : Nat → String) (managedRegexes : List TavernRegex)
    (worldbookName : String) (entryUid : Nat) (entry : WorldbookEntry) :
    List String → CreateState → CreateState
  | [], cs => cs
  | regexIdItem :: rest, cs =>
    match managedRegexes.find? (fun regexItem => regexItem.id == regexIdItem) with
    | none => createForEntry uuid managedRegexes worldbookName entryUid entry rest cs
    | some regex =>
      if (cs.bindings.find? (fun binding =>
            bindingTupleMatches binding worldbookName entryUid regexIdItem)).isSome then
        createForEntry uuid managedRegexes worldbookName entryUid entry rest cs
      else
        createForEntry uuid managedRegexes worldbookName entryUid entry rest
          { bindings := cs.bindings ++
              [{ id := uuid cs.uuidIndex
                 label := worldbookName ++ " / " ++
                   (if entry.name == "" then toString entry.uid else entry.name)
                 worldbook_name := worldbookName
                 worldbook_entry_uid := entry.uid
                 worldbook_entry_name :=
                   if entry.name == "" then "未命名条目-" ++ toString entry.uid
                   else entry.name
                 regex_id := regex.id
                 regex_script_name := regex.script_name }]
            createdCount := cs.createdCount + 1
            uuidIndex := cs.uuidIndex + 1 }

/-- Outer loop of createBindingFromSelection (src/index.ts lines
455-489): resolve each selected worldbook; a failed worldbook read
throws out of the whole operation (second component true, the pushes
made so far already live in the shared registry); a missing entry is
skipped. -/
def createOuterLoop (uuid : Nat → String)
    (worldbooks : List (String × List WorldbookEntry))
    (managedRegexes : List TavernRegex) (regexSelections : List String) :
    List (String × Nat) → CreateState → CreateState × Bool
  | [], cs => (cs, false)
  | (name, uid) :: rest, cs =>
    match getWorldbook worldbooks name with
    | none => (cs, true)
    | some entries =>
      match entries.find? (fun entryItem => entryItem.uid == uid) with
      | none => createOuterLoop uuid worldbooks managedRegexes regexSelections rest cs
      | some entry =>
        createOuterLoop uuid worldbooks managedRegexes regexSelections rest
          (createForEntry uuid managedRegexes name uid entry regexSelections cs)

/-- Outcome of createBindingFromSelection: the state after the call,
the createdCount the source reports, and whether a worldbook read threw
out of the loop. -/
structure CreateResult where
  state : AppState
  createdCount : Nat
  threw : Bool
deriving Repr

/-- createBindingFromSelection, from src/index.ts lines 415-498,
starting at the validity filters (lines 442-450); the selector rows
above are DOM scraping.  Registry pushes mutate the shared settings
object in place, so they are visible even when the operation later
throws or skips the save; the save counter increments only on the
successful createdCount > 0 path (line 496). -/
def createBindingFromSelection (st : AppState) (uuid : Nat → String)
    (worldbookSelections : List WorldbookSelection) (regexSelections : List String) :
    CreateResult :=
  let validWb := validWorldbookSelections worldbookSelections
  let validRegex := regexSelections.filter (fun item => item.length > 0)
  if validWb.isEmpty || validRegex.isEmpty then
    { state := st, createdCount := 0, threw := false }
  else
    let managedRegexes := getManagedRegexes st.regexes
    let result := createOuterLoop uuid st.worldbooks managedRegexes validRegex validWb
      { bindings := st.bindings, createdCount := 0, uuidIndex := 0 }
    let st' := { st with bindings := result.1.bindings }
    if result.2 then
      { state := st', createdCount := result.1.createdCount, threw := true }
    else if result.1.createdCount == 0 then
      { state := st', createdCount := 0, threw := false }
    else
      { state := { st' with saveCount := st'.saveCount + 1 }
        createdCount := result.1.createdCount
        threw := false }

/-- deleteBinding handler, src/index.ts lines 617-623. -/
def deleteBinding (st : AppState) (bindingId : String) : AppState :=
  { st with bindings := st.bindings.filter (fun item => item.id != bindingId)
            saveCount := st.saveCount + 1 }

/-- In-place label update of the renameStyle handler: the source finds
the first binding carrying the id and mutates that binding's label
field inside the registry. -/
def updateLabelFirst (bindingId : String) (renamed : String) :
    List StatusBarBinding → List StatusBarBinding
  | [] => []
  | b :: rest =>
    if b.id == bindingId then { b with label := renamed } :: rest
    else b :: updateLabelFirst bindingId renamed rest

/-- renameStyle handler, src/index.ts lines 625-641: promptResult is
the trimmed popup outcome (none models a cancelled popup); a missing
binding, a cancelled popup or an empty label leaves the state
untouched. -/
def renameBinding (st : AppState) (bindingId : String) (promptResult : Option String) :
    AppState :=
  match st.bindings.find? (fun item => item.id == bindingId), promptResult with
  | none, _ => st
  | some _, none => st
  | some _, some renamed =>
    if renamed == "" then st
    else { st with bindings := updateLabelFirst bindingId renamed st.bindings
                   saveCount := st.saveCount + 1 }

/-- The key the registry invariant is about: the (worldbook_name,
worldbook_entry_uid, regex_id) tuple of a binding. -/
def bindingTuple (binding : StatusBarBinding) : String × Nat × String :=
  (binding.worldbook_name, binding.worldbook_entry_uid, binding.regex_id)

/-- The registry invariant: no two bindings reference the identical
entry+rule pair. -/
def TupleUnique (bindings : List StatusBarBinding) : Prop :=
  (bindings.map bindingTuple).Nodup

instance : DecidablePred TupleUnique := fun bindings =>
  inferInstanceAs (Decidable (bindings.map bindingTuple).Nodup)

end StatusBarManager

theorem StatusBarManager.strStartsWith_append (p s : String) :
    StatusBarManager.strStartsWith (p ++ s) p = true := by
  simp only [StatusBarManager.strStartsWith, String.data_append, List.isPrefixOf_iff_prefix]
  exact List.prefix_append p.data s.data

/-- C6: for every string name, ensureRegexPrefix returns name unchanged
when name already starts with the namespace prefix and prefix ++ name
otherwise, and ensureRegexPrefix is idempotent. -/
theorem C6_ensureRegexPrefix_prefix_and_idempotent (name : String) :
    (StatusBarManager.strStartsWith name StatusBarManager.REGEX_PREFIX = true →
      StatusBarManager.ensureRegexPrefix name = name) ∧
    (StatusBarManager.strStartsWith name StatusBarManager.REGEX_PREFIX = false →
      StatusBarManager.ensureRegexPrefix name =
        StatusBarManager.REGEX_PREFIX ++ name) ∧
    StatusBarManager.ensureRegexPrefix (StatusBarManager.ensureRegexPrefix name) =
      StatusBarManager.ensureRegexPrefix name := by
  refine ⟨fun h => by simp [StatusBarManager.ensureRegexPrefix, h],
          fun h => by simp [StatusBarManager.ensureRegexPrefix, h], ?_⟩
  by_cases h : StatusBarManager.strStartsWith name StatusBarManager.REGEX_PREFIX = true
  · simp [StatusBarManager.ensureRegexPrefix, h]
  · simp only [StatusBarManager.ensureRegexPrefix, h, if_false, Bool.not_eq_true] at *
    simp [h, StatusBarManager.strStartsWith_append]

/-- C7: descriptor extraction tries exactly the spec's shapes in the
spec's order and returns the first match: the payload itself when it is
a list; its regex_scripts field when that is a list; its
data.regex_scripts field when that is a list; the payload wrapped as a
one-element list when it is a (non-null, non-array) object; otherwise
the empty list. -/
theorem C7_parseImportedRegexList_matches_spec (payload : StatusBarManager.JsValue) :
    StatusBarManager.parseImportedRegexList payload =
      StatusBarManager.descriptorExtractionSpec payload := by
  cases payload with
  | arr elems => rfl
  | obj fields =>
    simp only [StatusBarManager.parseImportedRegexList,
      StatusBarManager.descriptorExtractionSpec, StatusBarManager.JsValue.asArray]
    rcases h1 : (StatusBarManager.JsValue.obj fields).getField "regex_scripts" with _ | v1
    · rcases h2 : ((StatusBarManager.JsValue.obj fields).getField "data").bind
          (fun d => d.getField "regex_scripts") with _ | v2
      · simp [h1, h2]
      · cases v2 <;> simp [h1, h2, StatusBarManager.JsValue.asArray]
    · cases v1 with
      | arr elems1 => simp [h1, StatusBarManager.JsValue.asArray]
      | _ =>
        rcases h2 : ((StatusBarManager.JsValue.obj fields).getField "data").bind
            (fun d => d.getField "regex_scripts") with _ | v2
        · simp [h1, h2, StatusBarManager.JsValue.asArray]
        · cases v2 <;> simp [h1, h2, StatusBarManager.JsValue.asArray]
  | _ => rfl

/-- C2: getBindingLiveState never throws (it is a total function of the
state) and returns worldbook_enabled = null exactly when the worldbook
cannot be read or no entry carries the binding's uid (the entry's
enabled value otherwise), and regex_enabled = null exactly when no rule
carries the binding's regex_id (that rule's enabled value otherwise). -/
theorem C2_getBindingLiveState_never_throws_characterisation
    (st : StatusBarManager.AppState) (binding : StatusBarManager.StatusBarBinding) :
    (StatusBarManager.getWorldbook st.worldbooks binding.worldbook_name = none →
      (StatusBarManager.getBindingLiveState st binding).worldbook_enabled = none) ∧
    (∀ worldbook,
      StatusBarManager.getWorldbook st.worldbooks binding.worldbook_name = some worldbook →
      (worldbook.find? (fun item => item.uid == binding.worldbook_entry_uid) = none →
        (StatusBarManager.getBindingLiveState st binding).worldbook_enabled = none) ∧
      (∀ entry,
        worldbook.find? (fun item => item.uid == binding.worldbook_entry_uid) = some entry →
        (StatusBarManager.getBindingLiveState st binding).worldbook_enabled =
          some entry.enabled)) ∧
    (StatusBarManager.getRegexById st.regexes binding.regex_id = none →
      (StatusBarManager.getBindingLiveState st binding).regex_enabled = none) ∧
    (∀ regex, StatusBarManager.getRegexById st.regexes binding.regex_id = some regex →
      (StatusBarManager.getBindingLiveState st binding).regex_enabled =
        some regex.enabled) := by
  refine ⟨fun h => ?_, fun worldbook h => ⟨fun h2 => ?_, fun entry h2 => ?_⟩,
      fun h => ?_, fun regex h => ?_⟩
  · simp [StatusBarManager.getBindingLiveState, h]
  · simp [StatusBarManager.getBindingLiveState, h, h2]
  · simp [StatusBarManager.getBindingLiveState, h, h2]
  · simp [StatusBarManager.getBindingLiveState, h]
  · simp [StatusBarManager.getBindingLiveState, h]

/-- C1: setBindingEnabled raises the sync error exactly when neither
the knowledge entry (matched by worldbook_name and worldbook_entry_uid)
nor the transform rule (matched by regex_id) is present in the external
stores; whenever at least one side matches, the call completes without
error. -/
theorem C1_setBindingEnabled_syncError_iff_fully_orphaned
    (st : StatusBarManager.AppState) (binding : StatusBarManager.StatusBarBinding)
    (enabled : Bool) :
    ((StatusBarManager.setBindingEnabled st binding enabled).syncError = true ↔
      (¬ ∃ p ∈ st.worldbooks, p.1 = binding.worldbook_name ∧
          ∃ entry ∈ p.2, entry.uid = binding.worldbook_entry_uid) ∧
      ¬ ∃ regex ∈ st.regexes, regex.id = binding.regex_id) ∧
    (((∃ p ∈ st.worldbooks, p.1 = binding.worldbook_name ∧
          ∃ entry ∈ p.2, entry.uid = binding.worldbook_entry_uid) ∨
        ∃ regex ∈ st.regexes, regex.id = binding.regex_id) →
      (StatusBarManager.setBindingEnabled st binding enabled).syncError = false) := by
  constructor
  · simp [StatusBarManager.setBindingEnabled, List.any_eq_true, not_exists]
  · intro h
    rcases h with ⟨p, hp, hname, entry, he, huid⟩ | ⟨regex, hr, hid⟩
    · have hany : st.worldbooks.any (fun p =>
          p.1 == binding.worldbook_name &&
            p.2.any fun entry => entry.uid == binding.worldbook_entry_uid) = true := by
        simp only [List.any_eq_true, Bool.and_eq_true, beq_iff_eq]
        exact ⟨p, hp, hname, entry, he, by simp [huid]⟩
      simp [StatusBarManager.setBindingEnabled, hany]
    · have hany : st.regexes.any (fun regex => regex.id == binding.regex_id) = true := by
        simp only [List.any_eq_true, beq_iff_eq]
        exact ⟨regex, hr, hid⟩
      simp [StatusBarManager.setBindingEnabled, hany]

/-- C9: every setBindingEnabled call that matches the transform rule
rewrites the matched rule's script_name through the naming policy
(ensureRegexPrefix) unconditionally, alongside the enabled update —
in particular the rewrite does not depend on whether the rule's enabled
value changes. -/
theorem C9_setBindingEnabled_reapplies_naming_policy
    (st : StatusBarManager.AppState) (binding : StatusBarManager.StatusBarBinding)
    (enabled : Bool) (i : Nat) (h : i < st.regexes.length)
    (hid : (st.regexes.get ⟨i, h⟩).id = binding.regex_id) :
    ∃ h2 : i < (StatusBarManager.setBindingEnabled st binding enabled).state.regexes.length,
      (StatusBarManager.setBindingEnabled st binding enabled).state.regexes.get ⟨i, h2⟩ =
        { st.regexes.get ⟨i, h⟩ with
            enabled := enabled
            script_name :=
              StatusBarManager.ensureRegexPrefix (st.regexes.get ⟨i, h⟩).script_name } := by
  have hlen : (StatusBarManager.setBindingEnabled st binding enabled).state.regexes.length
      = st.regexes.length := by
    simp [StatusBarManager.setBindingEnabled]
  refine ⟨lt_of_lt_of_eq h hlen.symm, ?_⟩
  simp only [List.get_eq_getElem] at hid ⊢
  simp [StatusBarManager.setBindingEnabled, hid]

/-- C9 witness: a concrete store holding one rule whose enabled value
already equals the requested value; its name is still rewritten through
the naming policy. -/
theorem C9_setBindingEnabled_reapplies_naming_policy_witness :
    ∃ h2 : 0 < (StatusBarManager.setBindingEnabled
        { worldbooks := [], regexes := [{ id := "r1", script_name := "Foo", enabled := true }],
          bindings := [], saveCount := 0 }
        { id := "b1", label := "L", worldbook_name := "wb", worldbook_entry_uid := 1,
          worldbook_entry_name := "E", regex_id := "r1", regex_script_name := "Foo" }
        true).state.regexes.length,
      (StatusBarManager.setBindingEnabled
        { worldbooks := [], regexes := [{ id := "r1", script_name := "Foo", enabled := true }],
          bindings := [], saveCount := 0 }
        { id := "b1", label := "L", worldbook_name := "wb", worldbook_entry_uid := 1,
          worldbook_entry_name := "E", regex_id := "r1", regex_script_name := "Foo" }
        true).state.regexes.get ⟨0, h2⟩ =
        { StatusBarManager.TavernRegex.mk "r1" "Foo" true with
            enabled := true
            script_name := StatusBarManager.ensureRegexPrefix "Foo" } :=
  C9_setBindingEnabled_reapplies_naming_policy
    { worldbooks := [], regexes := [{ id := "r1", script_name := "Foo", enabled := true }],
      bindings := [], saveCount := 0 }
    { id := "b1", label := "L", worldbook_name := "wb", worldbook_entry_uid := 1,
      worldbook_entry_name := "E", regex_id := "r1", regex_script_name := "Foo" }
    true 0 (by decide) (by decide)

/-- C10: setBindingEnabled modifies at most the matched resources — the
binding registry and the save counter are untouched, every worldbook
pair keeps its name, every entry whose uid differs from the binding's
worldbook_entry_uid is returned unchanged, and every rule whose id
differs from the binding's regex_id is returned unchanged, including
its script_name. -/
theorem C10_setBindingEnabled_frame
    (st : StatusBarManager.AppState) (binding : StatusBarManager.StatusBarBinding)
    (enabled : Bool) :
    (StatusBarManager.setBindingEnabled st binding enabled).state.bindings = st.bindings ∧
    (StatusBarManager.setBindingEnabled st binding enabled).state.saveCount = st.saveCount ∧
    (StatusBarManager.setBindingEnabled st binding enabled).state.worldbooks.length =
      st.worldbooks.length ∧
    (∀ i, ∀ h : i < st.worldbooks.length,
      ∃ h2 : i < (StatusBarManager.setBindingEnabled st binding enabled).state.worldbooks.length,
        ((StatusBarManager.setBindingEnabled st binding enabled).state.worldbooks.get
            ⟨i, h2⟩).1 = (st.worldbooks.get ⟨i, h⟩).1 ∧
        ((StatusBarManager.setBindingEnabled st binding enabled).state.worldbooks.get
            ⟨i, h2⟩).2.length = (st.worldbooks.get ⟨i, h⟩).2.length ∧
        ∀ j, ∀ hj : j < (st.worldbooks.get ⟨i, h⟩).2.length,
          ((st.worldbooks.get ⟨i, h⟩).2.get ⟨j, hj⟩).uid ≠ binding.worldbook_entry_uid →
          ∃ hj2 : j < ((StatusBarManager.setBindingEnabled st binding
              enabled).state.worldbooks.get ⟨i, h2⟩).2.length,
            ((StatusBarManager.setBindingEnabled st binding enabled).state.worldbooks.get
                ⟨i, h2⟩).2.get ⟨j, hj2⟩ = (st.worldbooks.get ⟨i, h⟩).2.get ⟨j, hj⟩) ∧
    (∀ i, ∀ h : i < st.regexes.length,
      (st.regexes.get ⟨i, h⟩).id ≠ binding.regex_id →
      ∃ h2 : i < (StatusBarManager.setBindingEnabled st binding enabled).state.regexes.length,
        (StatusBarManager.setBindingEnabled st binding enabled).state.regexes.get ⟨i, h2⟩ =
          st.regexes.get ⟨i, h⟩) := by
  have hres : (StatusBarManager.setBindingEnabled st binding enabled).state.worldbooks =
      st.worldbooks.map (fun p =>
        if p.1 == binding.worldbook_name then
          (p.1, p.2.map (fun entry =>
            if entry.uid == binding.worldbook_entry_uid then { entry with enabled := enabled }
            else entry))
        else p) := rfl
  refine ⟨rfl, rfl, by rw [hres, List.length_map], ?_, ?_⟩
  · intro i h
    have h2 : i < (StatusBarManager.setBindingEnabled st binding
        enabled).state.worldbooks.length := by
      rw [hres, List.length_map]; exact h
    refine ⟨h2, ?_, ?_, ?_⟩
    · by_cases hb : (st.worldbooks.get ⟨i, h⟩).1 = binding.worldbook_name <;>
        simp only [List.get_eq_getElem] at hb <;>
        simp [hres, List.get_eq_getElem, List.getElem_map, hb]
    · by_cases hb : (st.worldbooks.get ⟨i, h⟩).1 = binding.worldbook_name <;>
        simp only [List.get_eq_getElem] at hb <;>
        simp [hres, List.get_eq_getElem, List.getElem_map, hb]
    · intro j hj huid
      simp only [List.get_eq_getElem] at huid
      have hj2 : j < ((StatusBarManager.setBindingEnabled st binding
          enabled).state.worldbooks.get ⟨i, h2⟩).2.length := by
        by_cases hb : (st.worldbooks.get ⟨i, h⟩).1 = binding.worldbook_name <;>
          simp only [List.get_eq_getElem] at hb <;>
          simpa [hres, List.get_eq_getElem, List.getElem_map, hb] using hj
      refine ⟨hj2, ?_⟩
      by_cases hb : (st.worldbooks.get ⟨i, h⟩).1 = binding.worldbook_name <;>
        simp only [List.get_eq_getElem] at hb <;>
        simp [hres, List.get_eq_getElem, List.getElem_map, hb, huid]
  · intro i h hid
    have h2 : i < (StatusBarManager.setBindingEnabled st binding
        enabled).state.regexes.length := by
      simpa [StatusBarManager.setBindingEnabled] using h
    refine ⟨h2, ?_⟩
    simp only [List.get_eq_getElem] at hid
    simp [StatusBarManager.setBindingEnabled, List.get_eq_getElem, List.getElem_map, hid]

/-- C4: when the external store's raw ingestion routine signals
failure, importRegexFromFile stops with the import error and mutates no
state: the rule store is unchanged (no renaming pass ran), the binding
registry is unchanged, and no save happened. -/
theorem C4_import_failure_mutates_nothing (st : StatusBarManager.AppState)
    (parsed : Option StatusBarManager.JsValue) :
    (StatusBarManager.importRegexFromFile st parsed none).importError = true ∧
    (StatusBarManager.importRegexFromFile st parsed none).state.regexes = st.regexes ∧
    (StatusBarManager.importRegexFromFile st parsed none).state.bindings = st.bindings ∧
    (StatusBarManager.importRegexFromFile st parsed none).state.worldbooks = st.worldbooks ∧
    (StatusBarManager.importRegexFromFile st parsed none).state.saveCount = st.saveCount :=
  ⟨rfl, rfl, rfl, rfl, rfl⟩

/-- C8: the count a successful import surfaces equals the size of the
managed subset (rules whose script_name starts with the namespace
prefix) of the post-import store; a concrete run where one of two
post-import managed rules is newly imported shows the surfaced count
(2) is not the newly-imported count (1). -/
theorem C8_import_reports_managed_count (st : StatusBarManager.AppState)
    (parsed : Option StatusBarManager.JsValue)
    (rs : List StatusBarManager.TavernRegex) :
    (StatusBarManager.importRegexFromFile st parsed (some rs)).reportedCount =
      ((StatusBarManager.importRegexFromFile st parsed (some rs)).state.regexes.filter
        (fun item =>
          StatusBarManager.strStartsWith item.script_name
            StatusBarManager.REGEX_PREFIX)).length ∧
    (StatusBarManager.importRegexFromFile
        { worldbooks := [],
          regexes := [{ id := "r0", script_name := "[状态栏] Old", enabled := true }],
          bindings := [], saveCount := 0 }
        none
        (some [{ id := "r0", script_name := "[状态栏] Old", enabled := true },
               { id := "r1", script_name := "New", enabled := false }])).reportedCount = 2 ∧
    (([{ id := "r0", script_name := "[状态栏] Old", enabled := true },
       { id := "r1", script_name := "New", enabled := false }] :
        List StatusBarManager.TavernRegex).filter
      (fun item => !(["r0"].contains item.id))).length = 1 := by
  refine ⟨rfl, ?_, by decide⟩
  decide

theorem StatusBarManager.newIndexBefore_zero (beforeIds : List String)
    (rs : List StatusBarManager.TavernRegex) :
    StatusBarManager.newIndexBefore beforeIds rs 0 = 0 := by
  simp [StatusBarManager.newIndexBefore]

theorem StatusBarManager.newIndexBefore_succ_cons (beforeIds : List String)
    (x : StatusBarManager.TavernRegex) (rest : List StatusBarManager.TavernRegex) (i : Nat) :
    StatusBarManager.newIndexBefore beforeIds (x :: rest) (i + 1) =
      (if beforeIds.contains x.id then 0 else 1) +
        StatusBarManager.newIndexBefore beforeIds rest i := by
  by_cases hm : x.id ∈ beforeIds <;>
    simp [StatusBarManager.newIndexBefore, List.filter_cons, hm, Nat.add_comm]

theorem StatusBarManager.renameNewRegexes_get? (beforeIds importedNames : List String) :
    ∀ (rs : List StatusBarManager.TavernRegex) (k i : Nat),
      (StatusBarManager.renameNewRegexes beforeIds importedNames rs k).get? i =
        (rs.get? i).map (fun item =>
          if beforeIds.contains item.id then item
          else { item with
                 script_name := StatusBarManager.ensureRegexPrefix ((importedNames.get? (k + StatusBarManager.newIndexBefore beforeIds rs i)).getD item.script_name) }) := by
  intro rs
  induction rs with
  | nil => intro k i; simp [StatusBarManager.renameNewRegexes]
  | cons x rest ih =>
    intro k i
    by_cases hm : x.id ∈ beforeIds
    · cases i with
      | zero =>
        simp [StatusBarManager.renameNewRegexes, hm]
      | succ i =>
        simpa [StatusBarManager.renameNewRegexes, hm,
          StatusBarManager.newIndexBefore_succ_cons] using ih k i
    · cases i with
      | zero =>
        simp [StatusBarManager.renameNewRegexes, hm,
          StatusBarManager.newIndexBefore_zero]
      | succ i =>
        simpa [StatusBarManager.renameNewRegexes, hm,
          StatusBarManager.newIndexBefore_succ_cons, Nat.add_assoc] using ih (k + 1) i

theorem StatusBarManager.renameNewRegexes_length (beforeIds importedNames : List String) :
    ∀ (rs : List StatusBarManager.TavernRegex) (k : Nat),
      (StatusBarManager.renameNewRegexes beforeIds importedNames rs k).length = rs.length := by
  intro rs
  induction rs with
  | nil => intro k; rfl
  | cons x rest ih =>
    intro k
    by_cases hm : x.id ∈ beforeIds <;>
      simp [StatusBarManager.renameNewRegexes, hm, ih]

/-- C5: after a successful import, rules whose ids were in the
pre-import snapshot are returned unmodified, while each rule new by id,
in store order, is renamed to ensureRegexPrefix applied to the next
inferred name from the ordered descriptor-name list, falling back to
the rule's own current name when that list is exhausted; in the
concrete scenario, a rule r1 imported with script_name Foo ends up
named with the prefix applied to Foo. -/
theorem C5_import_renames_only_new_rules (st : StatusBarManager.AppState)
    (parsed : Option StatusBarManager.JsValue)
    (rs : List StatusBarManager.TavernRegex) :
    (StatusBarManager.importRegexFromFile st parsed (some rs)).state.regexes.length =
      rs.length ∧
    (∀ i, (StatusBarManager.importRegexFromFile st parsed (some rs)).state.regexes.get? i =
      (rs.get? i).map (fun item =>
        if (st.regexes.map (fun r => r.id)).contains item.id then item
        else { item with
               script_name := StatusBarManager.ensureRegexPrefix (((StatusBarManager.computeImportedNames parsed).get? (StatusBarManager.newIndexBefore (st.regexes.map (fun r => r.id)) rs i)).getD item.script_name) })) ∧
    (StatusBarManager.importRegexFromFile
        { worldbooks := [], regexes := [], bindings := [], saveCount := 0 }
        (some (.obj [("regex_scripts",
          .arr [.obj [("id", .str "r1"), ("script_name", .str "Foo")]])]))
        (some [{ id := "r1", script_name := "store", enabled := true }])).state.regexes =
      [{ id := "r1", script_name := "[状态栏] Foo", enabled := true }] := by
  refine ⟨?_, ?_, rfl⟩
  · exact StatusBarManager.renameNewRegexes_length _ _ rs 0
  · intro i
    simpa using StatusBarManager.renameNewRegexes_get? (st.regexes.map (fun r => r.id))
      (StatusBarManager.computeImportedNames parsed) rs 0 i

theorem StatusBarManager.tuple_not_mem_of_find?_none
    (bindings : List StatusBarManager.StatusBarBinding) (n : String) (u : Nat) (rid : String)
    (h : bindings.find? (fun b => StatusBarManager.bindingTupleMatches b n u rid) = none) :
    (n, u, rid) ∉ bindings.map StatusBarManager.bindingTuple := by
  intro hmem
  rcases List.mem_map.mp hmem with ⟨b, hb, htup⟩
  have hfalse := List.find?_eq_none.mp h b hb
  simp only [StatusBarManager.bindingTuple, Prod.mk.injEq] at htup
  obtain ⟨h1, h2, h3⟩ := htup
  exact hfalse (by simp [StatusBarManager.bindingTupleMatches, h1, h2, h3])

theorem StatusBarManager.tupleUnique_append_single
    (bindings : List StatusBarManager.StatusBarBinding)
    (b : StatusBarManager.StatusBarBinding)
    (hu : StatusBarManager.TupleUnique bindings)
    (hnot : StatusBarManager.bindingTuple b ∉ bindings.map StatusBarManager.bindingTuple) :
    StatusBarManager.TupleUnique (bindings ++ [b]) := by
  simp only [StatusBarManager.TupleUnique, List.map_append, List.map_cons, List.map_nil,
    List.nodup_append] at *
  exact ⟨hu, by simp, by simp [List.disjoint_singleton, hnot]⟩

theorem StatusBarManager.createForEntry_tupleUnique (uuid : Nat → String)
    (managed : List StatusBarManager.TavernRegex) (n : String) (u : Nat)
    (entry : StatusBarManager.WorldbookEntry) (hent : entry.uid = u) :
    ∀ (sel : List String) (cs : StatusBarManager.CreateState),
      StatusBarManager.TupleUnique cs.bindings →
      StatusBarManager.TupleUnique
        (StatusBarManager.createForEntry uuid managed n u entry sel cs).bindings := by
  intro sel
  induction sel with
  | nil => intro cs h; exact h
  | cons rid rest ih =>
    intro cs h
    simp only [StatusBarManager.createForEntry]
    cases hfind : managed.find? (fun regexItem => regexItem.id == rid) with
    | none => exact ih cs h
    | some regex =>
      cases hdup : cs.bindings.find?
          (fun binding => StatusBarManager.bindingTupleMatches binding n u rid) with
      | some b0 =>
        simp only [hdup, Option.isSome_some, if_true]
        exact ih cs h
      | none =>
        simp only [hdup, Option.isSome_none, Bool.false_eq_true, if_false]
        apply ih
        have hrid : regex.id = rid := by simpa using List.find?_some hfind
        refine StatusBarManager.tupleUnique_append_single cs.bindings _ h ?_
        have hnot := StatusBarManager.tuple_not_mem_of_find?_none cs.bindings n u rid hdup
        simpa [StatusBarManager.bindingTuple, hent, hrid] using hnot

theorem StatusBarManager.createOuterLoop_tupleUnique (uuid : Nat → String)
    (worldbooks : List (String × List StatusBarManager.WorldbookEntry))
    (managed : List StatusBarManager.TavernRegex) (regexSel : List String) :
    ∀ (sels : List (String × Nat)) (cs : StatusBarManager.CreateState),
      StatusBarManager.TupleUnique cs.bindings →
      StatusBarManager.TupleUnique
        (StatusBarManager.createOuterLoop uuid worldbooks managed regexSel
          sels cs).1.bindings := by
  intro sels
  induction sels with
  | nil => intro cs h; exact h
  | cons p rest ih =>
    intro cs h
    obtain ⟨name, uid⟩ := p
    cases hwb : StatusBarManager.getWorldbook worldbooks name with
    | none => simp only [StatusBarManager.createOuterLoop, hwb]; exact h
    | some entries =>
      cases hfind : entries.find? (fun entryItem => entryItem.uid == uid) with
      | none =>
        simp only [StatusBarManager.createOuterLoop, hwb, hfind]
        exact ih cs h
      | some entry =>
        simp only [StatusBarManager.createOuterLoop, hwb, hfind]
        apply ih
        have hent : entry.uid = uid := by simpa using List.find?_some hfind
        exact StatusBarManager.createForEntry_tupleUnique uuid managed name uid entry hent
          regexSel cs h

theorem StatusBarManager.createBindingFromSelection_tupleUnique
    (st : StatusBarManager.AppState) (uuid : Nat → String)
    (wsels : List StatusBarManager.WorldbookSelection) (rsels : List String)
    (h : StatusBarManager.TupleUnique st.bindings) :
    StatusBarManager.TupleUnique
      (StatusBarManager.createBindingFromSelection st uuid wsels rsels).state.bindings := by
  simp only [StatusBarManager.createBindingFromSelection]
  split
  · exact h
  · split
    · exact StatusBarManager.createOuterLoop_tupleUnique uuid st.worldbooks
        (StatusBarManager.getManagedRegexes st.regexes)
        (rsels.filter (fun item => item.length > 0))
        (StatusBarManager.validWorldbookSelections wsels)
        { bindings := st.bindings, createdCount := 0, uuidIndex := 0 } h
    · split
      · exact StatusBarManager.createOuterLoop_tupleUnique uuid st.worldbooks
          (StatusBarManager.getManagedRegexes st.regexes)
          (rsels.filter (fun item => item.length > 0))
          (StatusBarManager.validWorldbookSelections wsels)
          { bindings := st.bindings, createdCount := 0, uuidIndex := 0 } h
      · exact StatusBarManager.createOuterLoop_tupleUnique uuid st.worldbooks
          (StatusBarManager.getManagedRegexes st.regexes)
          (rsels.filter (fun item => item.length > 0))
          (StatusBarManager.validWorldbookSelections wsels)
          { bindings := st.bindings, createdCount := 0, uuidIndex := 0 } h

theorem StatusBarManager.deleteBinding_tupleUnique (st : StatusBarManager.AppState)
    (bindingId : String) (h : StatusBarManager.TupleUnique st.bindings) :
    StatusBarManager.TupleUnique (StatusBarManager.deleteBinding st bindingId).bindings := by
  simp only [StatusBarManager.deleteBinding, StatusBarManager.TupleUnique] at *
  exact List.Nodup.sublist
    (List.Sublist.map StatusBarManager.bindingTuple (List.filter_sublist st.bindings)) h

theorem StatusBarManager.updateLabelFirst_map_tuple (bindingId renamed : String) :
    ∀ bs : List StatusBarManager.StatusBarBinding,
      (StatusBarManager.updateLabelFirst bindingId renamed bs).map
        StatusBarManager.bindingTuple = bs.map StatusBarManager.bindingTuple := by
  intro bs
  induction bs with
  | nil => rfl
  | cons b rest ih =>
    by_cases hb : b.id = bindingId <;>
      simp [StatusBarManager.updateLabelFirst, hb, StatusBarManager.bindingTuple, ih]

theorem StatusBarManager.renameBinding_tupleUnique (st : StatusBarManager.AppState)
    (bindingId : String) (promptResult : Option String)
    (h : StatusBarManager.TupleUnique st.bindings) :
    StatusBarManager.TupleUnique
      (StatusBarManager.renameBinding st bindingId promptResult).bindings := by
  simp only [StatusBarManager.renameBinding]
  split
  · exact h
  · exact h
  · split
    · exact h
    · simpa [StatusBarManager.TupleUnique,
        StatusBarManager.updateLabelFirst_map_tuple] using h

theorem StatusBarManager.createBindingFromSelection_singleton
    (st : StatusBarManager.AppState) (uuid : Nat → String)
    (n rid : String) (u : Nat) (entries : List StatusBarManager.WorldbookEntry)
    (entry : StatusBarManager.WorldbookEntry) (regex : StatusBarManager.TavernRegex)
    (hn : ¬ n = "")
    (hrlen : 0 < rid.length)
    (hw : StatusBarManager.getWorldbook st.worldbooks n = some entries)
    (he : entries.find? (fun e => e.uid == u) = some entry)
    (hr : (StatusBarManager.getManagedRegexes st.regexes).find?
      (fun r => r.id == rid) = some regex)
    (hdup : st.bindings.find?
      (fun b => StatusBarManager.bindingTupleMatches b n u rid) = none) :
    StatusBarManager.createBindingFromSelection st uuid [⟨n, some u⟩] [rid] =
      { state := { st with
          bindings := st.bindings ++
            [{ id := uuid 0
               label := n ++ " / " ++
                 (if entry.name == "" then toString entry.uid else entry.name)
               worldbook_name := n
               worldbook_entry_uid := entry.uid
               worldbook_entry_name :=
                 if entry.name == "" then "未命名条目-" ++ toString entry.uid else entry.name
               regex_id := regex.id
               regex_script_name := regex.script_name }]
          saveCount := st.saveCount + 1 }
        createdCount := 1
        threw := false } := by
  have hn2 : (n == "") = false := by simpa using hn
  have hrlen2 : decide (rid.length > 0) = true := by simpa using hrlen
  simp only [StatusBarManager.createBindingFromSelection,
    StatusBarManager.validWorldbookSelections, List.filterMap_cons, List.filterMap_nil, hn2,
    Bool.false_eq_true, if_false, List.filter_cons, List.filter_nil, hrlen2, if_true,
    List.isEmpty_nil, List.isEmpty_cons, Bool.or_false, Bool.false_or]
  simp only [StatusBarManager.createOuterLoop, hw, he, StatusBarManager.createForEntry, hr,
    hdup, Option.isSome_none, Bool.false_eq_true, if_false]
  simp

theorem StatusBarManager.createBindingFromSelection_singleton_dup
    (st : StatusBarManager.AppState) (uuid : Nat → String)
    (n rid : String) (u : Nat) (entries : List StatusBarManager.WorldbookEntry)
    (entry : StatusBarManager.WorldbookEntry) (regex : StatusBarManager.TavernRegex)
    (hn : ¬ n = "")
    (hrlen : 0 < rid.length)
    (hw : StatusBarManager.getWorldbook st.worldbooks n = some entries)
    (he : entries.find? (fun e => e.uid == u) = some entry)
    (hr : (StatusBarManager.getManagedRegexes st.regexes).find?
      (fun r => r.id == rid) = some regex)
    (hdup : (st.bindings.find?
      (fun b => StatusBarManager.bindingTupleMatches b n u rid)).isSome = true) :
    (StatusBarManager.createBindingFromSelection st uuid [⟨n, some u⟩] [rid]).createdCount =
      0 := by
  have hn2 : (n == "") = false := by simpa using hn
  have hrlen2 : decide (rid.length > 0) = true := by simpa using hrlen
  simp only [StatusBarManager.createBindingFromSelection,
    StatusBarManager.validWorldbookSelections, List.filterMap_cons, List.filterMap_nil, hn2,
    Bool.false_eq_true, if_false, List.filter_cons, List.filter_nil, hrlen2, if_true,
    List.isEmpty_nil, List.isEmpty_cons, Bool.or_false, Bool.false_or]
  simp only [StatusBarManager.createOuterLoop, hw, he, StatusBarManager.createForEntry, hr,
    hdup, if_true]
  simp

/-- C3: tuple uniqueness of (worldbook_name, worldbook_entry_uid,
regex_id) across the registry is preserved by every registry-touching
operation (creation, deletion, renaming, toggling, import); during
creation a combination whose tuple already exists is skipped, so
creating a binding for the same tuple twice yields createdCount 1 and
then 0. -/
theorem C3_tuple_uniqueness_invariant
    (st : StatusBarManager.AppState) (uuid uuid2 : Nat → String)
    (wsels : List StatusBarManager.WorldbookSelection) (rsels : List String)
    (bid : String) (pr : Option String) (binding : StatusBarManager.StatusBarBinding)
    (enabled : Bool) (parsed : Option StatusBarManager.JsValue)
    (ingested : Option (List StatusBarManager.TavernRegex))
    (n rid : String) (u : Nat) (entries : List StatusBarManager.WorldbookEntry)
    (entry : StatusBarManager.WorldbookEntry) (regex : StatusBarManager.TavernRegex)
    (hu : StatusBarManager.TupleUnique st.bindings)
    (hn : ¬ n = "")
    (hrlen : 0 < rid.length)
    (hw : StatusBarManager.getWorldbook st.worldbooks n = some entries)
    (he : entries.find? (fun e => e.uid == u) = some entry)
    (hr : (StatusBarManager.getManagedRegexes st.regexes).find?
      (fun r => r.id == rid) = some regex)
    (hdup : st.bindings.find?
      (fun b => StatusBarManager.bindingTupleMatches b n u rid) = none) :
    StatusBarManager.TupleUnique
      (StatusBarManager.createBindingFromSelection st uuid wsels rsels).state.bindings ∧
    StatusBarManager.TupleUnique (StatusBarManager.deleteBinding st bid).bindings ∧
    StatusBarManager.TupleUnique (StatusBarManager.renameBinding st bid pr).bindings ∧
    StatusBarManager.TupleUnique
      (StatusBarManager.setBindingEnabled st binding enabled).state.bindings ∧
    StatusBarManager.TupleUnique
      (StatusBarManager.importRegexFromFile st parsed ingested).state.bindings ∧
    (StatusBarManager.createBindingFromSelection st uuid
      [⟨n, some u⟩] [rid]).createdCount = 1 ∧
    (StatusBarManager.createBindingFromSelection
      (StatusBarManager.createBindingFromSelection st uuid [⟨n, some u⟩] [rid]).state
      uuid2 [⟨n, some u⟩] [rid]).createdCount = 0 := by
  have hent : entry.uid = u := by simpa using List.find?_some he
  have hregid : regex.id = rid := by simpa using List.find?_some hr
  have hfirst := StatusBarManager.createBindingFromSelection_singleton st uuid n rid u
    entries entry regex hn hrlen hw he hr hdup
  refine ⟨StatusBarManager.createBindingFromSelection_tupleUnique st uuid wsels rsels hu,
    StatusBarManager.deleteBinding_tupleUnique st bid hu,
    StatusBarManager.renameBinding_tupleUnique st bid pr hu,
    hu, ?_, ?_, ?_⟩
  · cases ingested with
    | none => exact hu
    | some rs => exact hu
  · rw [hfirst]
  · rw [hfirst]
    refine StatusBarManager.createBindingFromSelection_singleton_dup _ uuid2 n rid u
      entries entry regex hn hrlen hw he hr ?_
    refine List.find?_isSome.mpr ⟨_, List.mem_append_right _ (List.mem_singleton_self _), ?_⟩
    simp [StatusBarManager.bindingTupleMatches, hent, hregid]

/-- C3 witness: a concrete store with one worldbook entry and one
managed rule; creating the same (worldbook, entry, rule) binding twice
yields createdCount 1 and then 0. -/
theorem C3_tuple_uniqueness_invariant_witness :
    (StatusBarManager.createBindingFromSelection
      { worldbooks := [("wb", [{ uid := 1, name := "E", enabled := true }])],
        regexes := [{ id := "r1", script_name := "[状态栏] X", enabled := true }],
        bindings := [], saveCount := 0 }
      (fun _ => "u1") [⟨"wb", some 1⟩] ["r1"]).createdCount = 1 ∧
    (StatusBarManager.createBindingFromSelection
      (StatusBarManager.createBindingFromSelection
        { worldbooks := [("wb", [{ uid := 1, name := "E", enabled := true }])],
          regexes := [{ id := "r1", script_name := "[状态栏] X", enabled := true }],
          bindings := [], saveCount := 0 }
        (fun _ => "u1") [⟨"wb", some 1⟩] ["r1"]).state
      (fun _ => "u2") [⟨"wb", some 1⟩] ["r1"]).createdCount = 0 :=
  (C3_tuple_uniqueness_invariant
    { worldbooks := [("wb", [{ uid := 1, name := "E", enabled := true }])],
      regexes := [{ id := "r1", script_name := "[状态栏] X", enabled := true }],
      bindings := [], saveCount := 0 }
    (fun _ => "u1") (fun _ => "u2") [] [] "b" none
    { id := "b0", label := "L", worldbook_name := "wb", worldbook_entry_uid := 1,
      worldbook_entry_name := "E", regex_id := "r1", regex_script_name := "[状态栏] X" }
    true none none "wb" "r1" 1 [{ uid := 1, name := "E", enabled := true }]
    { uid := 1, name := "E", enabled := true }
    { id := "r1", script_name := "[状态栏] X", enabled := true }
    (by decide) (by decide) (by decide) rfl rfl rfl rfl).2.2.2.2.2
